import Mathlib

/-!
Shallow embedding of the jmap-convert conversion core (`src/main.rs`).

Raw text is modelled as a list of characters (`Str`); the Rust `str`
operations `trim_start`, `trim_end`, `starts_with` and `contains` are
embedded as executable list functions.  The external `calcard` library
(parsing, domain conversion, serialization, recurrence expansion) is an
external collaborator: the orchestrator is parameterized over a record of
its entry points, so every theorem quantifies over all possible library
behaviours.  The reactive UI signals of the Leptos app are embedded as an
explicit `AppState` record; `convert`, `set_error` and `set_occurrences`
are the state transformers read off the closures in `App`.
-/

namespace JmapConvert

/-- A Rust string slice, modelled as its character sequence. -/
abbrev Str := List Char

/-- Coercion from a Lean string literal to the character-list model. -/
def str (s : String) : Str := s.toList

/-- Rust `str::trim_start`: drop leading whitespace. -/
def trim_start (s : Str) : Str := s.dropWhile Char.isWhitespace

/-- Rust `str::trim_end`: drop trailing whitespace. -/
def trim_end (s : Str) : Str := (s.reverse.dropWhile Char.isWhitespace).reverse

/-- Rust `str::starts_with`: `p` is a prefix of `s`. -/
def starts_with (s p : Str) : Bool := p.isPrefixOf s

/-- Rust `str::contains`: `sub` occurs as a contiguous substring of `s`. -/
def contains_sub : Str → Str → Bool
  | [], sub => sub.isEmpty
  | c :: rest, sub => sub.isPrefixOf (c :: rest) || contains_sub rest sub

/-- `SourceType` from `main.rs`: the four detected source formats. -/
inductive SourceType where
  | ICalendar
  | JSCalendar
  | VCard
  | JSContact
deriving DecidableEq, Repr

/-- `SourceType::counterpart` from `main.rs`. -/
def SourceType.counterpart : SourceType → SourceType
  | SourceType.ICalendar => SourceType.JSCalendar
  | SourceType.JSCalendar => SourceType.ICalendar
  | SourceType.VCard => SourceType.JSContact
  | SourceType.JSContact => SourceType.VCard

/-- `calcard::common::timezone::Tz`: either the floating (zone-less)
timezone or a named fixed zone.  The orchestrator only ever constructs
`Tz::Floating`. -/
inductive Tz where
  | Floating
  | Named (name : Str)
deriving DecidableEq

/-- A resolved calcard date-time instant, as consumed by the formatter:
its position on the time line (`stamp`, used by `Ord`/`cmp`) and the
result of `timezone().name()` (`none` for a floating instant). -/
structure Instant where
  stamp : Int
  tz_name : Option Str
deriving DecidableEq

/-- The concrete start/end pair produced by
`CalendarEventInstance::try_into_date_time`. -/
structure EventDateTime where
  start : Instant
  «end» : Instant
deriving DecidableEq

/-- `Occurrence` from `main.rs`: the two display strings. -/
structure Occurrence where
  «from» : Str
  «to» : Str
deriving DecidableEq

/-- `calcard::icalendar::dates::CalendarExpand`: the list of expanded
event instances. -/
structure CalendarExpand (Ev : Type) where
  events : List Ev

/-- `calcard::Entry`: result of `Parser::new(text).entry()`.  Per the
external library contract these are exactly the variants the orchestrator
matches on: two success variants and five structural-error variants
(`IC`/`VC` are the parsed calendar/contact payloads, `Comp` the component
type named in an `UnexpectedComponentEnd`). -/
inductive Entry (IC VC Comp : Type) where
  | VCard (vcard : VC)
  | ICalendar (icalendar : IC)
  | InvalidLine (text : Str)
  | UnexpectedComponentEnd (expected : Comp) (found : Comp)
  | UnterminatedComponent (text : Str)
  | TooManyComponents
  | Eof

/-- The entry points of the external `calcard` library used by
`convert`, collected in one record so that the orchestrator can be
stated for every possible library behaviour. -/
structure Calcard (IC VC JSCal JSCon Ev Comp : Type) where
  parse_entry : Str → Entry IC VC Comp
  comp_as_str : Comp → Str
  vcard_into_jscontact : VC → JSCon
  jscontact_into_vcard : JSCon → Option VC
  icalendar_into_jscalendar : IC → JSCal
  jscalendar_into_icalendar : JSCal → Option IC
  jscalendar_parse : Str → Except Str JSCal
  jscontact_parse : Str → Except Str JSCon
  jscontact_to_string_pretty : JSCon → Str
  jscalendar_to_string_pretty : JSCal → Str
  vcard_to_string : VC → Str
  icalendar_to_string : IC → Str
  expand_dates : IC → Tz → Nat → CalendarExpand Ev
  try_into_date_time : Ev → Option EventDateTime
  fmt_instant : Instant → Str

/-- The reactive state of `App`: the signals `source_type`, `conversion`,
`roundtrip_conversion`, `error_message` and `occurrences`. -/
structure AppState where
  source_type : SourceType
  conversion : Str
  roundtrip_conversion : Str
  error_message : Str
  occurrences : List Occurrence
deriving DecidableEq

/-- The initial signal values of `App` (`String::new()` everywhere,
`SourceType::ICalendar`). -/
def empty_state : AppState :=
  { source_type := SourceType.ICalendar
    conversion := []
    roundtrip_conversion := []
    error_message := []
    occurrences := [] }

/-- The round-trip failure message set by every round-trip `None` arm. -/
def round_trip_bug_msg : Str :=
  str "Looks like you\x27ve found a bug in the conversion. Please report it."

/-- The message of the final `else` arm of `convert`. -/
def unrecognized_msg : Str :=
  str "Unrecognized format. Please provide a valid iCalendar, JSCalendar, vCard or JSContact file."

/-- The message of the JSON branch when neither discriminator occurs. -/
def not_json_msg : Str :=
  str "This does not look like a valid JSCalendar or JSContact."

/-- `set_error` from `App`: record the message and clear the conversion,
round-trip and occurrence outputs. -/
def set_error (st : AppState) (msg : Str) : AppState :=
  { st with
      error_message := msg
      conversion := []
      roundtrip_conversion := []
      occurrences := [] }

/-- Comparison used by `events.sort_unstable_by(|a, b| a.start.cmp(&b.start))`:
order event instances by their start instant. -/
def start_le (a b : EventDateTime) : Prop := a.start.stamp ≤ b.start.stamp

instance : DecidableRel start_le := fun a b =>
  inferInstanceAs (Decidable (a.start.stamp ≤ b.start.stamp))

instance : IsTotal EventDateTime start_le :=
  ⟨fun a b => Int.le_total a.start.stamp b.start.stamp⟩

instance : IsTrans EventDateTime start_le :=
  ⟨fun _ _ _ h1 h2 => Int.le_trans h1 h2⟩

/-- The event list built inside `set_occurrences`: keep the instances with
a resolvable concrete date-time pair (`filter_map(try_into_date_time)`)
and sort them by start instant. -/
def sorted_events {Ev : Type} (try_into : Ev → Option EventDateTime)
    (expanded : CalendarExpand Ev) : List EventDateTime :=
  List.insertionSort start_le (expanded.events.filterMap try_into)

/-- Formatting of one event instance into an `Occurrence`
(`format!("{} ({})", instant.format(..), instant.timezone().name().unwrap_or("Floating"))`
for both ends; the chrono date rendering itself is the external `fmt`). -/
def mk_occurrence (fmt : Instant → Str) (e : EventDateTime) : Occurrence :=
  { «from» := fmt e.start ++ str " (" ++ e.start.tz_name.getD (str "Floating") ++ str ")"
    «to» := fmt e.«end» ++ str " (" ++ e.«end».tz_name.getD (str "Floating") ++ str ")" }

/-- `set_occurrences` from `App`: the occurrence list written to the
`occurrences` signal for an expansion result. -/
def set_occurrences {Ev : Type} (fmt : Instant → Str)
    (try_into : Ev → Option EventDateTime)
    (expanded : CalendarExpand Ev) : List Occurrence :=
  (sorted_events try_into expanded).map (mk_occurrence fmt)

section Orchestrator

variable {IC VC JSCal JSCon Ev Comp : Type}

/-- The `BEGIN:` branch of `convert`: parse a legacy entry and dispatch
on the resulting `Entry` variant. -/
def legacy_branch (lib : Calcard IC VC JSCal JSCon Ev Comp)
    (st : AppState) (source : Str) : AppState :=
  match lib.parse_entry source with
  | Entry.VCard vcard =>
    let st := { st with source_type := SourceType.VCard }
    let jscontact := lib.vcard_into_jscontact vcard
    let st := { st with conversion := lib.jscontact_to_string_pretty jscontact }
    match lib.jscontact_into_vcard jscontact with
    | some vcard_roundtrip =>
      { st with roundtrip_conversion := lib.vcard_to_string vcard_roundtrip }
    | none => set_error st round_trip_bug_msg
  | Entry.ICalendar icalendar =>
    let st := { st with source_type := SourceType.ICalendar }
    let occ := set_occurrences lib.fmt_instant lib.try_into_date_time
      (lib.expand_dates icalendar Tz.Floating 25)
    let st := { st with occurrences := occ }
    let jscalendar := lib.icalendar_into_jscalendar icalendar
    let st := { st with conversion := lib.jscalendar_to_string_pretty jscalendar }
    match lib.jscalendar_into_icalendar jscalendar with
    | some icalendar_roundtrip =>
      { st with roundtrip_conversion := lib.icalendar_to_string icalendar_roundtrip }
    | none => set_error st round_trip_bug_msg
  | Entry.InvalidLine text => set_error st (str "Invalid line found: " ++ text)
  | Entry.UnexpectedComponentEnd expected found =>
    set_error st (str "Unexpected component end: expected " ++ lib.comp_as_str expected
      ++ str ", found " ++ lib.comp_as_str found)
  | Entry.UnterminatedComponent text =>
    set_error st (str "Unterminated component: " ++ text)
  | Entry.TooManyComponents => set_error st (str "Too many components")
  | Entry.Eof => set_error st (str "Unexpected end of file")

/-- The `"Group"` sub-branch of the JSON branch of `convert`
(`JSCalendar::parse(source.trim_end())` and onward). -/
def jscalendar_branch (lib : Calcard IC VC JSCal JSCon Ev Comp)
    (st : AppState) (source : Str) : AppState :=
  match lib.jscalendar_parse (trim_end source) with
  | Except.ok jscalendar =>
    match lib.jscalendar_into_icalendar jscalendar with
    | some icalendar =>
      let st := { st with source_type := SourceType.JSCalendar }
      let st := { st with conversion := lib.icalendar_to_string icalendar }
      let occ := set_occurrences lib.fmt_instant lib.try_into_date_time
        (lib.expand_dates icalendar Tz.Floating 25)
      let st := { st with occurrences := occ }
      { st with roundtrip_conversion :=
          lib.jscalendar_to_string_pretty (lib.icalendar_into_jscalendar icalendar) }
    | none => set_error st round_trip_bug_msg
  | Except.error err => set_error st (str "Failed to parse JSCalendar: " ++ err)

/-- The `"Card"` sub-branch of the JSON branch of `convert`
(`JSContact::parse(source)` and onward). -/
def jscontact_branch (lib : Calcard IC VC JSCal JSCon Ev Comp)
    (st : AppState) (source : Str) : AppState :=
  match lib.jscontact_parse source with
  | Except.ok jscontact =>
    match lib.jscontact_into_vcard jscontact with
    | some vcard =>
      let st := { st with source_type := SourceType.JSContact }
      let st := { st with conversion := lib.vcard_to_string vcard }
      { st with roundtrip_conversion :=
          lib.jscontact_to_string_pretty (lib.vcard_into_jscontact vcard) }
    | none => set_error st round_trip_bug_msg
  | Except.error err => set_error st (str "Failed to parse JSContact: " ++ err)

/-- The `starts_with('{')` branch of `convert`: signature sniffing on the
two JSON discriminator substrings. -/
def json_branch (lib : Calcard IC VC JSCal JSCon Ev Comp)
    (st : AppState) (source : Str) : AppState :=
  if contains_sub source (str "\"Group\"") then jscalendar_branch lib st source
  else if contains_sub source (str "\"Card\"") then jscontact_branch lib st source
  else set_error st not_json_msg

/-- The `convert` closure of `App`: trim, clear occurrences and error,
short-circuit on empty input, then dispatch on the detected family. -/
def convert (lib : Calcard IC VC JSCal JSCon Ev Comp)
    (st : AppState) (source_input : Str) : AppState :=
  let source := trim_start source_input
  let st := { st with occurrences := [], error_message := [] }
  if source.isEmpty then st
  else if starts_with source (str "BEGIN:") then legacy_branch lib st source
  else if starts_with source (str "\x7b") then json_branch lib st source
  else set_error st unrecognized_msg

end Orchestrator

/-- The state produced by a pipeline-aborting error: the previously
detected source type is untouched, every output field is cleared and the
message is recorded. -/
def aborted_with (st : AppState) (msg : Str) : AppState :=
  { source_type := st.source_type
    conversion := []
    roundtrip_conversion := []
    error_message := msg
    occurrences := [] }

/-- A trivial instantiation of the external library over unit payloads,
used to evaluate the orchestrator on concrete inputs. -/
def unit_lib : Calcard Unit Unit Unit Unit Unit Unit :=
  { parse_entry := fun _ => Entry.Eof
    comp_as_str := fun _ => []
    vcard_into_jscontact := fun _ => ()
    jscontact_into_vcard := fun _ => some ()
    icalendar_into_jscalendar := fun _ => ()
    jscalendar_into_icalendar := fun _ => some ()
    jscalendar_parse := fun _ => Except.ok ()
    jscontact_parse := fun _ => Except.ok ()
    jscontact_to_string_pretty := fun _ => []
    jscalendar_to_string_pretty := fun _ => []
    vcard_to_string := fun _ => []
    icalendar_to_string := fun _ => []
    expand_dates := fun _ _ _ => CalendarExpand.mk []
    try_into_date_time := fun _ => none
    fmt_instant := fun _ => [] }

/-- A library whose legacy parse yields a contact whose round-trip back
to vCard is absent, with a non-empty pretty-printed primary output. -/
def rt_fail_lib : Calcard Unit Unit Unit Unit Unit Unit :=
  { unit_lib with
      parse_entry := fun _ => Entry.VCard ()
      jscontact_to_string_pretty := fun _ => str "PRIMARY"
      jscontact_into_vcard := fun _ => none }

/-- A prior state holding non-empty outputs from an earlier conversion. -/
def prior_state : AppState :=
  { source_type := SourceType.VCard
    conversion := str "OLD"
    roundtrip_conversion := str "OLDRT"
    error_message := str "OLDERR"
    occurrences := [{ «from» := str "f", «to» := str "t" }] }

/-- The classified error messages of the conversion pipeline: one shape
per `set_error` call site of `convert`. -/
def classified_message (msg : Str) : Prop :=
  msg = unrecognized_msg ∨
  msg = not_json_msg ∨
  msg = round_trip_bug_msg ∨
  (∃ t, msg = str "Invalid line found: " ++ t) ∨
  (∃ e f, msg = str "Unexpected component end: expected " ++ e ++ str ", found " ++ f) ∨
  (∃ t, msg = str "Unterminated component: " ++ t) ∨
  msg = str "Too many components" ∨
  msg = str "Unexpected end of file" ∨
  (∃ e, msg = str "Failed to parse JSCalendar: " ++ e) ∨
  (∃ e, msg = str "Failed to parse JSContact: " ++ e)

/-- A library whose calendar-JSON parse fails with a fixed message. -/
def jscal_err_lib : Calcard Unit Unit Unit Unit Unit Unit :=
  { unit_lib with jscalendar_parse := fun _ => Except.error (str "oops") }

/-- A prefix of a nonempty pattern forces a nonempty text. -/
theorem starts_with_isEmpty_false {s p : Str} (hp : p ≠ []) (h : starts_with s p = true) :
    s.isEmpty = false := by
  cases s with
  | nil =>
    cases p with
    | nil => exact absurd rfl hp
    | cons c cp => simp [starts_with] at h
  | cons a t => rfl

/-- A text whose first character is an opening brace does not start with
the legacy block marker. -/
theorem brace_not_begin {s : Str} (h : starts_with s (str "\x7b") = true) :
    starts_with s (str "BEGIN:") = false := by
  simp only [starts_with, List.isPrefixOf_iff_prefix] at h
  obtain ⟨t, rfl⟩ := h
  rfl

/-- Lists with distinct heads are distinct. -/
theorem ne_of_head_ne {l1 l2 : Str} (h : l1.head? ≠ l2.head?) : l1 ≠ l2 :=
  fun e => h (e ▸ rfl)

/-- C5: counterpart is total and involutive on the four source formats,
pairing each legacy format with its JSON format. -/
theorem c5_counterpart_involutive :
    (∀ f : SourceType, f.counterpart.counterpart = f) ∧
    SourceType.counterpart SourceType.ICalendar = SourceType.JSCalendar ∧
    SourceType.counterpart SourceType.JSCalendar = SourceType.ICalendar ∧
    SourceType.counterpart SourceType.VCard = SourceType.JSContact ∧
    SourceType.counterpart SourceType.JSContact = SourceType.VCard := by
  refine ⟨fun f => ?_, rfl, rfl, rfl, rfl⟩
  cases f <;> rfl

/-- C6: the occurrence list is the image of an event list sorted
ascending by start instant. -/
theorem c6_occurrences_sorted {Ev : Type} (fmt : Instant → Str)
    (try_into : Ev → Option EventDateTime) (expanded : CalendarExpand Ev) :
    set_occurrences fmt try_into expanded
      = (sorted_events try_into expanded).map (mk_occurrence fmt) ∧
    (sorted_events try_into expanded).Pairwise start_le :=
  ⟨rfl, List.sorted_insertionSort start_le _⟩

/-- C7: expansion results never have more occurrences than the library's
cap, and the resolvability filter can only reduce the count. -/
theorem c7_occurrence_cap {IC VC JSCal JSCon Ev Comp : Type}
    (lib : Calcard IC VC JSCal JSCon Ev Comp) (ic : IC)
    (hcap : (lib.expand_dates ic Tz.Floating 25).events.length ≤ 25) :
    (set_occurrences lib.fmt_instant lib.try_into_date_time
        (lib.expand_dates ic Tz.Floating 25)).length ≤ 25 ∧
    ∀ expanded : CalendarExpand Ev,
      (set_occurrences lib.fmt_instant lib.try_into_date_time expanded).length
        ≤ expanded.events.length := by
  have key : ∀ expanded : CalendarExpand Ev,
      (set_occurrences lib.fmt_instant lib.try_into_date_time expanded).length
        ≤ expanded.events.length := by
    intro expanded
    simp only [set_occurrences, sorted_events, List.length_map, List.length_insertionSort]
    exact List.length_filterMap_le _ _
  exact ⟨le_trans (key _) hcap, key⟩

/-- C8: the parenthesised zone label is the instant's own zone name, or
the literal Floating when the instant carries none. -/
theorem c8_zone_label (fmt : Instant → Str) (e : EventDateTime) :
    (∀ n, e.start.tz_name = some n →
      (mk_occurrence fmt e).«from» = fmt e.start ++ str " (" ++ n ++ str ")") ∧
    (e.start.tz_name = none →
      (mk_occurrence fmt e).«from» = fmt e.start ++ str " (" ++ str "Floating" ++ str ")") ∧
    (∀ n, e.«end».tz_name = some n →
      (mk_occurrence fmt e).«to» = fmt e.«end» ++ str " (" ++ n ++ str ")") ∧
    (e.«end».tz_name = none →
      (mk_occurrence fmt e).«to» = fmt e.«end» ++ str " (" ++ str "Floating" ++ str ")") := by
  refine ⟨fun n hn => ?_, fun hn => ?_, fun n hn => ?_, fun hn => ?_⟩ <;>
    simp [mk_occurrence, hn]

/-- C2 counterexample: on whitespace-only input the conversion and
round-trip text of the prior result are left in place, not cleared. -/
theorem c2_counterexample :
    (convert unit_lib prior_state (str "  ")).error_message = [] ∧
    (convert unit_lib prior_state (str "  ")).occurrences = [] ∧
    (convert unit_lib prior_state (str "  ")).conversion = str "OLD" ∧
    (convert unit_lib prior_state (str "  ")).roundtrip_conversion = str "OLDRT" := by
  refine ⟨rfl, rfl, rfl, rfl⟩

/-- C2 (amended): empty or whitespace-only input produces no result and
no error; it clears the occurrences and the error message but leaves the
prior primary conversion and round-trip text unchanged. -/
theorem c2_empty_input {IC VC JSCal JSCon Ev Comp : Type}
    (lib : Calcard IC VC JSCal JSCon Ev Comp) (st : AppState) (s : Str)
    (h : (trim_start s).isEmpty = true) :
    convert lib st s = { st with occurrences := [], error_message := [] } := by
  simp [convert, h]

/-- C2 witness: the amended statement at a concrete whitespace input. -/
theorem c2_empty_input_witness :
    (trim_start (str " ")).isEmpty = true ∧
    convert unit_lib prior_state (str " ")
      = { prior_state with occurrences := [], error_message := [] } :=
  ⟨rfl, c2_empty_input unit_lib prior_state (str " ") rfl⟩

/-- C9: each structural-error variant of the legacy parser maps 1:1 to
its error message and aborts the pipeline, clearing all outputs. -/
theorem c9_legacy_error_mapping {IC VC JSCal JSCon Ev Comp : Type}
    (lib : Calcard IC VC JSCal JSCon Ev Comp) (st : AppState) (s : Str)
    (hb : starts_with (trim_start s) (str "BEGIN:") = true) :
    (∀ t, lib.parse_entry (trim_start s) = Entry.InvalidLine t →
      convert lib st s = aborted_with st (str "Invalid line found: " ++ t)) ∧
    (∀ e f, lib.parse_entry (trim_start s) = Entry.UnexpectedComponentEnd e f →
      convert lib st s = aborted_with st (str "Unexpected component end: expected "
        ++ lib.comp_as_str e ++ str ", found " ++ lib.comp_as_str f)) ∧
    (∀ t, lib.parse_entry (trim_start s) = Entry.UnterminatedComponent t →
      convert lib st s = aborted_with st (str "Unterminated component: " ++ t)) ∧
    (lib.parse_entry (trim_start s) = Entry.TooManyComponents →
      convert lib st s = aborted_with st (str "Too many components")) ∧
    (lib.parse_entry (trim_start s) = Entry.Eof →
      convert lib st s = aborted_with st (str "Unexpected end of file")) := by
  have hne : (trim_start s).isEmpty = false :=
    starts_with_isEmpty_false (by decide) hb
  refine ⟨fun t ht => ?_, fun e f hef => ?_, fun t ht => ?_, fun h => ?_, fun h => ?_⟩ <;>
    simp_all [convert, legacy_branch, set_error, aborted_with]

/-- C9 witness: the mapping at a concrete library and input. -/
theorem c9_legacy_error_mapping_witness :
    starts_with (trim_start (str "BEGIN:X")) (str "BEGIN:") = true ∧
    convert unit_lib prior_state (str "BEGIN:X")
      = aborted_with prior_state (str "Unexpected end of file") := by
  refine ⟨rfl, ?_⟩
  exact (c9_legacy_error_mapping unit_lib prior_state (str "BEGIN:X") rfl).2.2.2.2 rfl

/-- C1 counterexample: when the round-trip conversion is absent, the
round-trip failure message is set and the primary conversion output is
discarded (cleared to empty), not surfaced. -/
theorem c1_counterexample :
    (convert rt_fail_lib empty_state (str "BEGIN:VCARD")).error_message = round_trip_bug_msg ∧
    rt_fail_lib.jscontact_to_string_pretty () = str "PRIMARY" ∧
    (convert rt_fail_lib empty_state (str "BEGIN:VCARD")).conversion = [] := by
  refine ⟨rfl, rfl, rfl⟩

/-- C1 (amended): a round-trip failure is reported via the failure
message and clears the primary conversion, round-trip text and
occurrences; only the detected source format remains surfaced. -/
theorem c1_roundtrip_failure {IC VC JSCal JSCon Ev Comp : Type}
    (lib : Calcard IC VC JSCal JSCon Ev Comp) (st : AppState) (s : Str)
    (hb : starts_with (trim_start s) (str "BEGIN:") = true) :
    (∀ v, lib.parse_entry (trim_start s) = Entry.VCard v →
      lib.jscontact_into_vcard (lib.vcard_into_jscontact v) = none →
      convert lib st s = ⟨SourceType.VCard, [], [], round_trip_bug_msg, []⟩) ∧
    (∀ ic, lib.parse_entry (trim_start s) = Entry.ICalendar ic →
      lib.jscalendar_into_icalendar (lib.icalendar_into_jscalendar ic) = none →
      convert lib st s = ⟨SourceType.ICalendar, [], [], round_trip_bug_msg, []⟩) := by
  have hne : (trim_start s).isEmpty = false :=
    starts_with_isEmpty_false (by decide) hb
  refine ⟨fun v hv hrt => ?_, fun ic hic hrt => ?_⟩ <;>
    simp_all [convert, legacy_branch, set_error]

/-- C1 witness: the amended statement at a concrete failing library. -/
theorem c1_roundtrip_failure_witness :
    starts_with (trim_start (str "BEGIN:VCARD")) (str "BEGIN:") = true ∧
    rt_fail_lib.parse_entry (trim_start (str "BEGIN:VCARD")) = Entry.VCard () ∧
    rt_fail_lib.jscontact_into_vcard (rt_fail_lib.vcard_into_jscontact ()) = none ∧
    convert rt_fail_lib empty_state (str "BEGIN:VCARD")
      = ⟨SourceType.VCard, [], [], round_trip_bug_msg, []⟩ := by
  refine ⟨rfl, rfl, rfl, ?_⟩
  exact (c1_roundtrip_failure rt_fail_lib empty_state (str "BEGIN:VCARD") rfl).1 () rfl rfl

/-- Routing: empty trimmed input only clears occurrences and error. -/
theorem convert_empty {IC VC JSCal JSCon Ev Comp : Type}
    (lib : Calcard IC VC JSCal JSCon Ev Comp) (st : AppState) (s : Str)
    (h1 : (trim_start s).isEmpty = true) :
    convert lib st s = { st with occurrences := [], error_message := [] } := by
  simp [convert, h1]

/-- Routing: a trimmed input starting with the legacy block marker goes
to the legacy branch on the cleared state. -/
theorem convert_legacy {IC VC JSCal JSCon Ev Comp : Type}
    (lib : Calcard IC VC JSCal JSCon Ev Comp) (st : AppState) (s : Str)
    (h1 : (trim_start s).isEmpty = false)
    (h2 : starts_with (trim_start s) (str "BEGIN:") = true) :
    convert lib st s
      = legacy_branch lib { st with occurrences := [], error_message := [] } (trim_start s) := by
  simp [convert, h1, h2]

/-- Routing: a trimmed input starting with an opening brace goes to the
JSON branch on the cleared state. -/
theorem convert_json {IC VC JSCal JSCon Ev Comp : Type}
    (lib : Calcard IC VC JSCal JSCon Ev Comp) (st : AppState) (s : Str)
    (h1 : (trim_start s).isEmpty = false)
    (h2 : starts_with (trim_start s) (str "BEGIN:") = false)
    (h3 : starts_with (trim_start s) (str "\x7b") = true) :
    convert lib st s
      = json_branch lib { st with occurrences := [], error_message := [] } (trim_start s) := by
  simp [convert, h1, h2, h3]

/-- Routing: any other non-empty input is rejected as unrecognized. -/
theorem convert_unrecognized {IC VC JSCal JSCon Ev Comp : Type}
    (lib : Calcard IC VC JSCal JSCon Ev Comp) (st : AppState) (s : Str)
    (h1 : (trim_start s).isEmpty = false)
    (h2 : starts_with (trim_start s) (str "BEGIN:") = false)
    (h3 : starts_with (trim_start s) (str "\x7b") = false) :
    convert lib st s = aborted_with st unrecognized_msg := by
  simp [convert, h1, h2, h3, set_error, aborted_with]

/-- Routing inside the JSON branch: the calendar discriminator wins. -/
theorem json_branch_group {IC VC JSCal JSCon Ev Comp : Type}
    (lib : Calcard IC VC JSCal JSCon Ev Comp) (st : AppState) (s : Str)
    (hg : contains_sub s (str "\"Group\"") = true) :
    json_branch lib st s = jscalendar_branch lib st s := by
  simp [json_branch, hg]

/-- Routing inside the JSON branch: the contact discriminator is tried
second. -/
theorem json_branch_card {IC VC JSCal JSCon Ev Comp : Type}
    (lib : Calcard IC VC JSCal JSCon Ev Comp) (st : AppState) (s : Str)
    (hg : contains_sub s (str "\"Group\"") = false)
    (hc : contains_sub s (str "\"Card\"") = true) :
    json_branch lib st s = jscontact_branch lib st s := by
  simp [json_branch, hg, hc]

/-- Routing inside the JSON branch: neither discriminator present. -/
theorem json_branch_none {IC VC JSCal JSCon Ev Comp : Type}
    (lib : Calcard IC VC JSCal JSCon Ev Comp) (st : AppState) (s : Str)
    (hg : contains_sub s (str "\"Group\"") = false)
    (hc : contains_sub s (str "\"Card\"") = false) :
    json_branch lib st s = set_error st not_json_msg := by
  simp [json_branch, hg, hc]

/-- Case analysis on the error message left by the legacy branch. -/
theorem legacy_branch_error {IC VC JSCal JSCon Ev Comp : Type}
    (lib : Calcard IC VC JSCal JSCon Ev Comp) (st : AppState) (s : Str) :
    (legacy_branch lib st s).error_message = st.error_message ∨
    classified_message (legacy_branch lib st s).error_message := by
  simp only [legacy_branch]
  split
  · split
    · left; rfl
    · right; exact Or.inr (Or.inr (Or.inl rfl))
  · split
    · left; rfl
    · right; exact Or.inr (Or.inr (Or.inl rfl))
  · next t ht => right; exact Or.inr (Or.inr (Or.inr (Or.inl ⟨t, rfl⟩)))
  · next e f hef =>
    right
    exact Or.inr (Or.inr (Or.inr (Or.inr (Or.inl ⟨lib.comp_as_str e, lib.comp_as_str f, rfl⟩))))
  · next t ht =>
    right
    exact Or.inr (Or.inr (Or.inr (Or.inr (Or.inr (Or.inl ⟨t, rfl⟩)))))
  · right
    exact Or.inr (Or.inr (Or.inr (Or.inr (Or.inr (Or.inr (Or.inl rfl))))))
  · right
    exact Or.inr (Or.inr (Or.inr (Or.inr (Or.inr (Or.inr (Or.inr (Or.inl rfl)))))))

/-- Case analysis on the error message left by the JSCalendar branch. -/
theorem jscalendar_branch_error {IC VC JSCal JSCon Ev Comp : Type}
    (lib : Calcard IC VC JSCal JSCon Ev Comp) (st : AppState) (s : Str) :
    (jscalendar_branch lib st s).error_message = st.error_message ∨
    (jscalendar_branch lib st s).error_message = round_trip_bug_msg ∨
    ∃ err, lib.jscalendar_parse (trim_end s) = Except.error err ∧
      (jscalendar_branch lib st s).error_message = str "Failed to parse JSCalendar: " ++ err := by
  simp only [jscalendar_branch]
  split
  · split
    · left; rfl
    · right; left; rfl
  · next err heq => right; right; exact ⟨err, heq, rfl⟩

/-- Case analysis on the error message left by the JSContact branch. -/
theorem jscontact_branch_error {IC VC JSCal JSCon Ev Comp : Type}
    (lib : Calcard IC VC JSCal JSCon Ev Comp) (st : AppState) (s : Str) :
    (jscontact_branch lib st s).error_message = st.error_message ∨
    (jscontact_branch lib st s).error_message = round_trip_bug_msg ∨
    ∃ err, lib.jscontact_parse s = Except.error err ∧
      (jscontact_branch lib st s).error_message = str "Failed to parse JSContact: " ++ err := by
  simp only [jscontact_branch]
  split
  · split
    · left; rfl
    · right; left; rfl
  · next err heq => right; right; exact ⟨err, heq, rfl⟩

/-- C3: conversion is total — every input yields either a state with no
error message or one of the classified error messages; every legacy
parser variant is handled. -/
theorem c3_total_classified {IC VC JSCal JSCon Ev Comp : Type}
    (lib : Calcard IC VC JSCal JSCon Ev Comp) (st : AppState) (s : Str) :
    (convert lib st s).error_message = [] ∨
    classified_message (convert lib st s).error_message := by
  cases h1 : (trim_start s).isEmpty with
  | true => rw [convert_empty lib st s h1]; left; rfl
  | false =>
    cases h2 : starts_with (trim_start s) (str "BEGIN:") with
    | true =>
      rw [convert_legacy lib st s h1 h2]
      rcases legacy_branch_error lib { st with occurrences := [], error_message := [] }
          (trim_start s) with h | h
      · left; exact h
      · right; exact h
    | false =>
      cases h3 : starts_with (trim_start s) (str "\x7b") with
      | true =>
        rw [convert_json lib st s h1 h2 h3]
        cases h4 : contains_sub (trim_start s) (str "\"Group\"") with
        | true =>
          rw [json_branch_group lib _ _ h4]
          rcases jscalendar_branch_error lib { st with occurrences := [], error_message := [] }
              (trim_start s) with h | h | ⟨err, herr, h⟩
          · left; exact h
          · right; rw [h]; exact Or.inr (Or.inr (Or.inl rfl))
          · right; rw [h]
            exact Or.inr (Or.inr (Or.inr (Or.inr (Or.inr (Or.inr (Or.inr (Or.inr (Or.inl ⟨err, rfl⟩))))))))
        | false =>
          cases h5 : contains_sub (trim_start s) (str "\"Card\"") with
          | true =>
            rw [json_branch_card lib _ _ h4 h5]
            rcases jscontact_branch_error lib { st with occurrences := [], error_message := [] }
                (trim_start s) with h | h | ⟨err, herr, h⟩
            · left; exact h
            · right; rw [h]; exact Or.inr (Or.inr (Or.inl rfl))
            · right; rw [h]
              exact Or.inr (Or.inr (Or.inr (Or.inr (Or.inr (Or.inr (Or.inr (Or.inr (Or.inr ⟨err, rfl⟩))))))))
          | false =>
            rw [json_branch_none lib _ _ h4 h5]
            right; exact Or.inr (Or.inl rfl)
      | false =>
        rw [convert_unrecognized lib st s h1 h2 h3]
        right; exact Or.inl rfl

/-- C4: for brace-led input, the calendar discriminator routes to the
calendar-JSON parse path (never an unrecognized-format outcome, and a
parse failure yields the parse error message); the contact discriminator
routes to the contact-JSON parse path; with neither, the input is
rejected as not a valid JSON document of either domain. -/
theorem c4_json_sniffing {IC VC JSCal JSCon Ev Comp : Type}
    (lib : Calcard IC VC JSCal JSCon Ev Comp) (st : AppState) (s : Str)
    (hb : starts_with (trim_start s) (str "\x7b") = true) :
    (contains_sub (trim_start s) (str "\"Group\"") = true →
      convert lib st s
        = jscalendar_branch lib { st with occurrences := [], error_message := [] } (trim_start s) ∧
      (∀ err, lib.jscalendar_parse (trim_end (trim_start s)) = Except.error err →
        (convert lib st s).error_message = str "Failed to parse JSCalendar: " ++ err) ∧
      (convert lib st s).error_message ≠ unrecognized_msg ∧
      (convert lib st s).error_message ≠ not_json_msg) ∧
    (contains_sub (trim_start s) (str "\"Group\"") = false →
      contains_sub (trim_start s) (str "\"Card\"") = true →
      convert lib st s
        = jscontact_branch lib { st with occurrences := [], error_message := [] } (trim_start s)) ∧
    (contains_sub (trim_start s) (str "\"Group\"") = false →
      contains_sub (trim_start s) (str "\"Card\"") = false →
      convert lib st s = aborted_with st not_json_msg) := by
  have h1 : (trim_start s).isEmpty = false := starts_with_isEmpty_false (by decide) hb
  have h2 : starts_with (trim_start s) (str "BEGIN:") = false := brace_not_begin hb
  refine ⟨fun hg => ?_, fun hg hc => ?_, fun hg hc => ?_⟩
  · have hroute : convert lib st s
        = jscalendar_branch lib { st with occurrences := [], error_message := [] } (trim_start s) := by
      rw [convert_json lib st s h1 h2 hb, json_branch_group lib _ _ hg]
    refine ⟨hroute, fun err herr => ?_, ?_, ?_⟩
    · rw [hroute]
      simp [jscalendar_branch, herr, set_error]
    · rw [hroute]
      rcases jscalendar_branch_error lib { st with occurrences := [], error_message := [] }
          (trim_start s) with h | h | ⟨err, herr, h⟩ <;> rw [h]
      · exact (by decide : ([] : Str) ≠ unrecognized_msg)
      · decide
      · exact ne_of_head_ne (by decide : (some 'F' : Option Char) ≠ unrecognized_msg.head?)
    · rw [hroute]
      rcases jscalendar_branch_error lib { st with occurrences := [], error_message := [] }
          (trim_start s) with h | h | ⟨err, herr, h⟩ <;> rw [h]
      · exact (by decide : ([] : Str) ≠ not_json_msg)
      · decide
      · exact ne_of_head_ne (by decide : (some 'F' : Option Char) ≠ not_json_msg.head?)
  · rw [convert_json lib st s h1 h2 hb, json_branch_card lib _ _ hg hc]
  · rw [convert_json lib st s h1 h2 hb, json_branch_none lib _ _ hg hc]
    rfl

/-- C4 witness: the sniffing behaviour at concrete inputs. -/
theorem c4_json_sniffing_witness :
    starts_with (trim_start (str "\x7b\"Group\"\x7d")) (str "\x7b") = true ∧
    (convert jscal_err_lib empty_state (str "\x7b\"Group\"\x7d")).error_message
      = str "Failed to parse JSCalendar: " ++ str "oops" := by
  have h := c4_json_sniffing jscal_err_lib empty_state (str "\x7b\"Group\"\x7d") (by decide)
  exact ⟨by decide, (h.1 (by decide)).2.1 (str "oops") rfl⟩

/-- C10: when both discriminators occur, the calendar one is tested
first and takes precedence. -/
theorem c10_group_precedence {IC VC JSCal JSCon Ev Comp : Type}
    (lib : Calcard IC VC JSCal JSCon Ev Comp) (st : AppState) (s : Str)
    (hb : starts_with (trim_start s) (str "\x7b") = true)
    (hg : contains_sub (trim_start s) (str "\"Group\"") = true)
    (_hc : contains_sub (trim_start s) (str "\"Card\"") = true) :
    convert lib st s
      = jscalendar_branch lib { st with occurrences := [], error_message := [] } (trim_start s) := by
  have h1 : (trim_start s).isEmpty = false := starts_with_isEmpty_false (by decide) hb
  rw [convert_json lib st s h1 (brace_not_begin hb) hb, json_branch_group lib _ _ hg]

/-- C10 witness: precedence at a concrete input holding both keys. -/
theorem c10_group_precedence_witness :
    contains_sub (trim_start (str "\x7b\"Group\"\"Card\"\x7d")) (str "\"Group\"") = true ∧
    contains_sub (trim_start (str "\x7b\"Group\"\"Card\"\x7d")) (str "\"Card\"") = true ∧
    convert unit_lib empty_state (str "\x7b\"Group\"\"Card\"\x7d")
      = jscalendar_branch unit_lib
          { empty_state with occurrences := [], error_message := [] }
          (trim_start (str "\x7b\"Group\"\"Card\"\x7d")) := by
  refine ⟨by decide, by decide, ?_⟩
  exact c10_group_precedence unit_lib empty_state _ (by decide) (by decide) (by decide)

/-- C7 witness: the cap at a concrete library and entry. -/
theorem c7_occurrence_cap_witness :
    (unit_lib.expand_dates () Tz.Floating 25).events.length ≤ 25 ∧
    (set_occurrences unit_lib.fmt_instant unit_lib.try_into_date_time
        (unit_lib.expand_dates () Tz.Floating 25)).length ≤ 25 :=
  ⟨by decide, (c7_occurrence_cap unit_lib () (by decide)).1⟩

/-- C8 witness: a zone-less instant is labelled Floating. -/
theorem c8_zone_label_witness :
    (mk_occurrence (fun _ => str "D") ⟨⟨0, none⟩, ⟨0, none⟩⟩).«from»
      = str "D" ++ str " (" ++ str "Floating" ++ str ")" ∧
    (mk_occurrence (fun _ => str "D") ⟨⟨0, none⟩, ⟨0, none⟩⟩).«to»
      = str "D" ++ str " (" ++ str "Floating" ++ str ")" := by
  have h := c8_zone_label (fun _ => str "D") ⟨⟨0, none⟩, ⟨0, none⟩⟩
  exact ⟨h.2.1 rfl, h.2.2.2 rfl⟩

end JmapConvert
